import Mathlib

/-!
Verification of the Job Orchestration client of the intelligent-audio-tuning-tool
repository, shallowly embedded in Lean 4.

The embedded code:
* `useJobProgress` (frontend/src/hooks, in App.js bundle): `getPollingInterval`,
  the success/failure step of `pollJobStatus`, and `cancelProcessing`;
* `JobsPanel.js`: the per-item action guards (retry / cancel buttons), the stats
  card keys, the sort-change handlers, and the cursor bookkeeping of `fetchList`;
* `api.js` (`src/unnamed/part_003`): `AudioWebSocket.attemptReconnect`;
* `errorHandler.js`: `ErrorHandler.handleApiError`.

Server-side operations (retry/cancel legality, the stats endpoint, keyset
listing) are not part of the shipped sources; where a claim needs them they are
modelled from the specification and marked as such in their doc comments.
-/

/-! ## Progress Poller (useJobProgress in App.js) -/

/-- The smart polling-interval function of `useJobProgress` (App.js lines
155-161): 1000 ms while progress < 10, 2000 ms while < 50, 1500 ms while < 90,
500 ms otherwise. -/
def getPollingInterval (currentProgress : Nat) : Nat :=
  if currentProgress < 10 then 1000
  else if currentProgress < 50 then 2000
  else if currentProgress < 90 then 1500
  else 500

/-- Maximum number of consecutive poll-read retries (`maxRetries` in
`useJobProgress`). -/
def maxRetries : Nat := 3

/-- Outcome of one iteration of `pollJobStatus`: whether another poll is
scheduled (and with what delay), the resulting `processing` flag, whether the
client-side `error` state was set, and the new retry counter. -/
structure PollOutcome where
  schedulesNext : Bool
  delayMs : Nat
  processing : Bool
  errorSet : Bool
  retryCount : Nat
  deriving Repr, DecidableEq

/-- One successful poll of `pollJobStatus` (App.js lines 167-208): the retry
counter is reset to 0; on status "COMPLETED" polling stops with `processing`
false and the error cleared; on "FAILED" polling stops with `processing` false
and the error set; on every other status a next poll is scheduled after
`getPollingInterval` of the newly observed progress, with `processing` still
true (it was set true when polling started and this branch does not change
it). -/
def pollStepSuccess (status : String) (newProgress : Nat) : PollOutcome :=
  if status = "COMPLETED" then
    { schedulesNext := false, delayMs := 0, processing := false
      errorSet := false, retryCount := 0 }
  else if status = "FAILED" then
    { schedulesNext := false, delayMs := 0, processing := false
      errorSet := true, retryCount := 0 }
  else
    { schedulesNext := true, delayMs := getPollingInterval newProgress
      processing := true, errorSet := false, retryCount := 0 }

/-- One failed poll of `pollJobStatus` (App.js lines 209-224): the retry
counter is incremented; while it is still at most `maxRetries` another poll is
scheduled after a fixed 3000 ms backoff; once it exceeds `maxRetries` polling
stops, `processing` is set false and the client-side error is set. -/
def pollStepFailure (retryCount : Nat) : PollOutcome :=
  let r := retryCount + 1
  if r ≤ maxRetries then
    { schedulesNext := true, delayMs := 3000, processing := true
      errorSet := false, retryCount := r }
  else
    { schedulesNext := false, delayMs := 0, processing := false
      errorSet := true, retryCount := r }

/-- Result of `cancelProcessing` (App.js lines 255-287): the pending poll timer
is cleared, a server-side `cancel(job_id)` is issued exactly when a job id is
known, and `processing` ends up false. The `try`/`catch` around
`audioAPI.cancelJob` swallows any failure, so the outcome does not depend on
whether the cancel call succeeds. -/
structure CancelOutcome where
  pollCleared : Bool
  cancelIssued : Bool
  processing : Bool
  deriving Repr, DecidableEq

/-- `cancelProcessing` as a function of the known job id and of whether the
server-side cancel call succeeds. -/
def cancelProcessing (jobId : Option String) (_cancelSucceeds : Bool) :
    CancelOutcome :=
  { pollCleared := true, cancelIssued := jobId.isSome, processing := false }

/-! ## Claims C1-C3 -/

/-- Claim C1, counterexample: the claim says the interval chosen at a larger
progress is never larger than the one chosen at a smaller progress, for all
progress values in [0,100]; but at progress 5 the interval is 1000 ms while at
progress 30 it is 2000 ms. -/
theorem getPollingInterval_not_antitone :
    5 ≤ 30 ∧ (30 : Nat) ≤ 100 ∧
      getPollingInterval 5 < getPollingInterval 30 := by decide

/-- Claim C1 (amended): for progress values from 10 on, the polling interval is
antitone — for all 10 ≤ p1 ≤ p2 ≤ 100 the interval at p2 is at most the
interval at p1 (2000 ms in [10,50), 1500 ms in [50,90), 500 ms from 90 on).
The first bucket (progress < 10, 1000 ms) breaks global antitonicity, since the
interval rises to 2000 ms at mid progress. -/
theorem getPollingInterval_antitone_from_ten (p1 p2 : Nat)
    (h1 : 10 ≤ p1) (h12 : p1 ≤ p2) (_h2 : p2 ≤ 100) :
    getPollingInterval p2 ≤ getPollingInterval p1 := by
  unfold getPollingInterval
  repeat' split
  all_goals omega

/-- Witness for C1 (amended) at p1 = 10, p2 = 95. -/
theorem getPollingInterval_antitone_from_ten_witness :
    getPollingInterval 95 ≤ getPollingInterval 10 :=
  getPollingInterval_antitone_from_ten 10 95 (by decide) (by decide) (by decide)

/-- Claim C2, counterexample: `pollJobStatus` treats only "COMPLETED" and
"FAILED" as terminal; a job observed in status "CANCELLED" falls into the
final `else` branch and a further poll is scheduled, contradicting the claim
that no further poll is ever scheduled after a terminal status is observed. -/
theorem pollStepSuccess_cancelled_keeps_polling :
    (pollStepSuccess "CANCELLED" 50).schedulesNext = true := by decide

/-- Claim C2 (amended): on observing "COMPLETED" or "FAILED" the client stops
polling (no next poll, `processing` false); on observing "CANCELLED" the
client schedules a further poll like any non-terminal status; and
`cancelProcessing` clears the poll timer, sets `processing` false, and issues
`cancel(job_id)` exactly when a job id is known, with the same outcome whether
or not the server-side cancel call succeeds. -/
theorem pollStepSuccess_terminal_and_cancel (p : Nat) (jid : Option String)
    (ok1 ok2 : Bool) :
    (pollStepSuccess "COMPLETED" p).schedulesNext = false ∧
    (pollStepSuccess "COMPLETED" p).processing = false ∧
    (pollStepSuccess "FAILED" p).schedulesNext = false ∧
    (pollStepSuccess "FAILED" p).processing = false ∧
    (pollStepSuccess "CANCELLED" p).schedulesNext = true ∧
    (cancelProcessing jid ok1).pollCleared = true ∧
    (cancelProcessing jid ok1).processing = false ∧
    (cancelProcessing jid ok1).cancelIssued = jid.isSome ∧
    cancelProcessing jid ok1 = cancelProcessing jid ok2 := by
  refine ⟨rfl, rfl, rfl, rfl, rfl, rfl, rfl, rfl, rfl⟩

/-- Claim C3: a failed poll read increments the retry counter and is retried
with a fixed 3000 ms backoff exactly while the new count is at most
`maxRetries` = 3; once the count exceeds the bound, no further poll is
scheduled, `processing` becomes false and the client-side error is set; any
successful poll resets the retry counter to 0. -/
theorem pollStepFailure_bounded_retry (r : Nat) (s : String) (p : Nat) :
    (pollStepFailure r).retryCount = r + 1 ∧
    (pollStepFailure r).schedulesNext = decide (r + 1 ≤ maxRetries) ∧
    (pollStepFailure r).delayMs = (if r + 1 ≤ maxRetries then 3000 else 0) ∧
    (pollStepFailure r).processing = decide (r + 1 ≤ maxRetries) ∧
    (pollStepFailure r).errorSet = decide (maxRetries < r + 1) ∧
    (pollStepSuccess s p).retryCount = 0 := by
  refine ⟨?_, ?_, ?_, ?_, ?_, ?_⟩
  all_goals simp only [pollStepFailure, pollStepSuccess, maxRetries]
  all_goals repeat' split
  all_goals simp_all
  all_goals omega

/-! ## AudioWebSocket reconnection (api.js, src/unnamed/part_003) -/

/-- Maximum number of WebSocket reconnection attempts
(`this.maxReconnectAttempts` in `AudioWebSocket`). -/
def maxReconnectAttempts : Nat := 5

/-- Outcome of one call to `AudioWebSocket.attemptReconnect`: either a
reconnect is scheduled after a delay with the incremented attempt counter, or
the bound is reached, `onError` is invoked and nothing further is scheduled. -/
inductive ReconnectOutcome where
  | scheduled (delayMs : Nat) (newAttempts : Nat)
  | failed
  deriving Repr, DecidableEq

/-- `AudioWebSocket.attemptReconnect` (src/unnamed/part_003 lines 513-529):
while `reconnectAttempts < maxReconnectAttempts`, the counter is incremented
and a reconnect is scheduled after `2 ^ reconnectAttempts * 1000` ms (with the
already incremented counter); otherwise `onError` is invoked with a failure
and no reconnect is scheduled. -/
def attemptReconnect (reconnectAttempts : Nat) : ReconnectOutcome :=
  if reconnectAttempts < maxReconnectAttempts then
    ReconnectOutcome.scheduled (2 ^ (reconnectAttempts + 1) * 1000)
      (reconnectAttempts + 1)
  else
    ReconnectOutcome.failed

/-- Iterates `attemptReconnect` (each scheduled reconnect assumed to fail and
close again), collecting the scheduled delays and whether the final `onError`
report was reached, with explicit fuel for termination. -/
def runReconnects : Nat → Nat → List Nat × Bool
  | 0, _ => ([], false)
  | fuel + 1, attempts =>
    match attemptReconnect attempts with
    | ReconnectOutcome.scheduled d a' =>
      let rest := runReconnects fuel a'
      (d :: rest.1, rest.2)
    | ReconnectOutcome.failed => ([], true)

/-- Claim C9: the n-th reconnection attempt (made when the counter holds
n - 1) is scheduled with delay exactly 2 ^ n × 1000 ms; at most
`maxReconnectAttempts` = 5 attempts are made, after which `onError` is invoked
and no further attempt is scheduled: a full run from a fresh connection
schedules exactly the delays 2000, 4000, 8000, 16000, 32000 ms and then
reports failure. -/
theorem attemptReconnect_exponential_backoff (n : Nat)
    (h : n < maxReconnectAttempts) :
    attemptReconnect n
      = ReconnectOutcome.scheduled (2 ^ (n + 1) * 1000) (n + 1) ∧
    attemptReconnect maxReconnectAttempts = ReconnectOutcome.failed ∧
    runReconnects (maxReconnectAttempts + 1) 0
      = ([2000, 4000, 8000, 16000, 32000], true) := by
  refine ⟨?_, by decide, by decide⟩
  unfold attemptReconnect
  simp [h]

/-- Witness for C9 at n = 0: the first attempt is scheduled after 2000 ms. -/
theorem attemptReconnect_exponential_backoff_witness :
    attemptReconnect 0 = ReconnectOutcome.scheduled 2000 1 :=
  (attemptReconnect_exponential_backoff 0 (by decide)).1

/-! ## Job statuses and the spec-modelled Orchestrator operations -/

/-- The job status enumeration of the spec's state machine (spec section 4.1). -/
inductive JobStatus where
  | PENDING
  | ANALYZING
  | INVERTING
  | RENDERING
  | COMPLETED
  | FAILED
  | CANCELLED
  deriving Repr, DecidableEq

/-- The wire name of a status, as it appears in API responses and in the
client's string comparisons. -/
def statusName : JobStatus → String
  | JobStatus.PENDING => "PENDING"
  | JobStatus.ANALYZING => "ANALYZING"
  | JobStatus.INVERTING => "INVERTING"
  | JobStatus.RENDERING => "RENDERING"
  | JobStatus.COMPLETED => "COMPLETED"
  | JobStatus.FAILED => "FAILED"
  | JobStatus.CANCELLED => "CANCELLED"

/-- Whether a status is terminal (spec section 4.1: COMPLETED, FAILED and
CANCELLED are terminal). -/
def isTerminal : JobStatus → Bool
  | JobStatus.COMPLETED => true
  | JobStatus.FAILED => true
  | JobStatus.CANCELLED => true
  | _ => false

/-- The server-side view of a Job that the retry/cancel operations touch. -/
structure SJob where
  status : JobStatus
  progress : Nat
  error : Option String
  deriving Repr, DecidableEq

/-- Errors of the spec-modelled Orchestrator operations. -/
inductive OrchError where
  | InvalidState
  deriving Repr, DecidableEq

/-- Modelled from the spec: the server-side `retry(job_id)` operation is not
in the shipped sources; spec section 4.1 says it is legal only when status =
FAILED, resets progress to 0, clears the error, sets status PENDING, and fails
with InvalidState on a non-FAILED job with no mutation (an `Except.error`
result leaves the stored job unchanged). -/
def retryOp (j : SJob) : Except OrchError SJob :=
  if j.status = JobStatus.FAILED then
    Except.ok { j with status := JobStatus.PENDING, progress := 0, error := none }
  else
    Except.error OrchError.InvalidState

/-- Modelled from the spec: the server-side `cancel(job_id)` operation is not
in the shipped sources; spec section 4.1 says it is legal when status is one
of PENDING, ANALYZING, INVERTING, RENDERING (sets status CANCELLED) and fails
with InvalidState on jobs already terminal, with no mutation. -/
def cancelOp (j : SJob) : Except OrchError SJob :=
  if isTerminal j.status then
    Except.error OrchError.InvalidState
  else
    Except.ok { j with status := JobStatus.CANCELLED }

/-! ## JobsPanel client-side action guards -/

/-- The guard under which `JobsPanel` renders the retry action for a list item
(JobsPanel.js line 200: `item.status === 'FAILED'`). -/
def retryOffered (status : String) : Bool :=
  status = "FAILED"

/-- The guard under which `JobsPanel` renders the cancel action for a list
item (JobsPanel.js line 212: the action is omitted exactly when
`['COMPLETED','FAILED','CANCELLED'].includes(item.status)`). -/
def cancelOffered (status : String) : Bool :=
  !(["COMPLETED", "FAILED", "CANCELLED"].contains status)

/-- Claim C4: `retry` succeeds exactly on FAILED jobs — resetting progress,
clearing the error and setting status PENDING — and fails with InvalidState on
every other status, leaving the job unchanged; and the client offers the retry
action exactly for items whose status string is "FAILED". -/
theorem retryOp_legal_iff_failed (j : SJob) (s : String) :
    (j.status = JobStatus.FAILED →
      retryOp j = Except.ok
        { j with status := JobStatus.PENDING, progress := 0, error := none }) ∧
    (j.status ≠ JobStatus.FAILED →
      retryOp j = Except.error OrchError.InvalidState) ∧
    (retryOffered s = true ↔ s = "FAILED") ∧
    retryOffered (statusName JobStatus.FAILED) = true ∧
    (∀ st : JobStatus, st ≠ JobStatus.FAILED →
      retryOffered (statusName st) = false) := by
  refine ⟨?_, ?_, ?_, by decide, ?_⟩
  · intro h
    simp [retryOp, h]
  · intro h
    simp [retryOp, h]
  · simp [retryOffered]
  · intro st hst
    cases st <;> simp_all [retryOffered, statusName]

/-- Witness for C4 at a concrete FAILED job, a concrete PENDING job and the
status string "FAILED". -/
theorem retryOp_legal_iff_failed_witness :
    retryOp ⟨JobStatus.FAILED, 33, some "bad features"⟩
        = Except.ok ⟨JobStatus.PENDING, 0, none⟩ ∧
    retryOp ⟨JobStatus.PENDING, 0, none⟩
        = Except.error OrchError.InvalidState ∧
    retryOffered "FAILED" = true := by
  refine ⟨?_, ?_, ?_⟩
  · exact (retryOp_legal_iff_failed ⟨JobStatus.FAILED, 33, some "bad features"⟩
      "FAILED").1 rfl
  · exact (retryOp_legal_iff_failed ⟨JobStatus.PENDING, 0, none⟩
      "FAILED").2.1 (by decide)
  · exact (retryOp_legal_iff_failed ⟨JobStatus.PENDING, 0, none⟩
      "FAILED").2.2.1.mpr rfl

/-- Claim C5: `cancel` succeeds exactly on non-terminal jobs (status PENDING,
ANALYZING, INVERTING or RENDERING), setting status CANCELLED, and fails with
InvalidState on jobs already in COMPLETED, FAILED or CANCELLED, leaving them
unchanged; and the client offers the cancel action exactly for items whose
status string is not one of "COMPLETED", "FAILED", "CANCELLED". -/
theorem cancelOp_legal_iff_nonterminal (j : SJob) (s : String) :
    (isTerminal j.status = false →
      cancelOp j = Except.ok { j with status := JobStatus.CANCELLED }) ∧
    (isTerminal j.status = true →
      cancelOp j = Except.error OrchError.InvalidState) ∧
    (∀ st : JobStatus, isTerminal st = false ↔
      (st = JobStatus.PENDING ∨ st = JobStatus.ANALYZING ∨
       st = JobStatus.INVERTING ∨ st = JobStatus.RENDERING)) ∧
    (cancelOffered s = true ↔
      ¬(s = "COMPLETED" ∨ s = "FAILED" ∨ s = "CANCELLED")) ∧
    (∀ st : JobStatus, cancelOffered (statusName st) = !(isTerminal st)) := by
  refine ⟨?_, ?_, ?_, ?_, ?_⟩
  · intro h
    simp [cancelOp, h]
  · intro h
    simp [cancelOp, h]
  · intro st
    cases st <;> simp [isTerminal]
  · simp [cancelOffered]
  · intro st
    cases st <;> decide

/-- Witness for C5 at a concrete RENDERING job (cancel succeeds) and a
concrete COMPLETED job (cancel fails with InvalidState). -/
theorem cancelOp_legal_iff_nonterminal_witness :
    cancelOp ⟨JobStatus.RENDERING, 80, none⟩
        = Except.ok ⟨JobStatus.CANCELLED, 80, none⟩ ∧
    cancelOp ⟨JobStatus.COMPLETED, 100, none⟩
        = Except.error OrchError.InvalidState := by
  refine ⟨?_, ?_⟩
  · exact (cancelOp_legal_iff_nonterminal ⟨JobStatus.RENDERING, 80, none⟩
      "RENDERING").1 (by decide)
  · exact (cancelOp_legal_iff_nonterminal ⟨JobStatus.COMPLETED, 100, none⟩
      "COMPLETED").2.1 (by decide)

/-! ## Stats endpoint and the JobsPanel stats card -/

/-- Modelled from the spec: the stats endpoint is not in the shipped sources;
spec section 6 gives its result shape as a mapping with exactly the six keys
PENDING, ANALYZING, INVERTING, RENDERING, COMPLETED, FAILED. -/
def statsEndpointKeys : List String :=
  ["PENDING", "ANALYZING", "INVERTING", "RENDERING", "COMPLETED", "FAILED"]

/-- Modelled from the spec: `GET /jobs/stats` aggregates the matching jobs of
the Job Store into integer counts, one per key of `statsEndpointKeys`. -/
def jobStats (jobs : List SJob) : List (String × Nat) :=
  statsEndpointKeys.map (fun k =>
    (k, (jobs.filter (fun j => statusName j.status = k)).length))

/-- The status keys the JobsPanel stats card enumerates (JobsPanel.js line
95). -/
def statsCardKeys : List String :=
  ["PENDING", "ANALYZING", "INVERTING", "RENDERING", "COMPLETED", "FAILED"]

/-- The value the stats card renders for key `k` (JobsPanel.js line 98:
`stats[k] || 0`): the looked-up count, and 0 when the key is absent from the
response (a present count of 0 also renders as 0, since `0 || 0` is 0). -/
def renderStatValue (resp : List (String × Nat)) (k : String) : Nat :=
  match resp.lookup k with
  | some v => v
  | none => 0

/-- Claim C6: the stats result maps exactly the six statuses PENDING,
ANALYZING, INVERTING, RENDERING, COMPLETED, FAILED to counts; the client's
stats card enumerates exactly those six keys, never CANCELLED, and renders 0
for any key absent from the response. -/
theorem jobStats_exactly_six_keys (jobs : List SJob)
    (resp : List (String × Nat)) (k : String) (habs : resp.lookup k = none) :
    (jobStats jobs).map Prod.fst = statsEndpointKeys ∧
    statsCardKeys = statsEndpointKeys ∧
    statsCardKeys.length = 6 ∧
    "CANCELLED" ∉ statsCardKeys ∧
    renderStatValue resp k = 0 := by
  refine ⟨rfl, rfl, rfl, by decide, ?_⟩
  simp [renderStatValue, habs]

/-- Witness for C6 at the empty response and key "CANCELLED". -/
theorem jobStats_exactly_six_keys_witness :
    renderStatValue [] "CANCELLED" = 0 :=
  (jobStats_exactly_six_keys [] [] "CANCELLED" rfl).2.2.2.2

/-! ## JobsPanel pagination state -/

/-- The slice of JobsPanel state that listing touches: the current sort field,
sort direction and stored pagination cursor. -/
structure PanelState where
  sortBy : String
  sortOrder : String
  cursor : Option String
  deriving Repr, DecidableEq

/-- A `GET /jobs` request as built by `fetchList` (JobsPanel.js line 54):
`{ limit: 20, cursor: cur, sort_by: sortBy, order: sortOrder }` where `cur` is
the argument of `fetchList`. -/
structure ListRequest where
  limit : Nat
  cursor : Option String
  sort_by : String
  order : String
  deriving Repr, DecidableEq

/-- The request `fetchList cur` issues, given the state its closure captured. -/
def mkListRequest (st : PanelState) (cur : Option String) : ListRequest :=
  { limit := 20, cursor := cur, sort_by := st.sortBy, order := st.sortOrder }

/-- The sort-field select handler (JobsPanel.js line 149):
`setSortBy(v); setCursor(null); fetchList(null)` — the stored cursor is reset
and the fetch issued by the handler passes cursor null (the closure still
carries the pre-change sort values; the re-rendered effect then refetches,
also with a null cursor). -/
def onChangeSortBy (st : PanelState) (v : String) : PanelState × ListRequest :=
  ({ st with sortBy := v, cursor := none }, mkListRequest st none)

/-- The sort-order select handler (JobsPanel.js line 158):
`setSortOrder(v); setCursor(null); fetchList(null)`. -/
def onChangeSortOrder (st : PanelState) (v : String) :
    PanelState × ListRequest :=
  ({ st with sortOrder := v, cursor := none }, mkListRequest st none)

/-- Claim C7: after the user changes `sort_by` or `order`, the stored cursor
is reset to null and the first list request issued carries `cursor = null`:
pagination restarts from the beginning. -/
theorem sortChange_resets_cursor (st : PanelState) (v : String) :
    (onChangeSortBy st v).2.cursor = none ∧
    (onChangeSortBy st v).1.cursor = none ∧
    (onChangeSortOrder st v).2.cursor = none ∧
    (onChangeSortOrder st v).1.cursor = none :=
  ⟨rfl, rfl, rfl, rfl⟩

/-! ## Keyset listing (spec-modelled) and the client cursor bookkeeping -/

/-- Modelled from the spec: the strict "comes before" relation of the listing
order (spec section 4.3) over rows given as (sort-key value, job id) pairs —
the sort key ascending or descending per `order`, ties broken by id ascending
in either direction. -/
def rowBefore (descOrd : Bool) (a b : Nat × Nat) : Bool :=
  if a.1 = b.1 then decide (a.2 < b.2)
  else if descOrd then decide (b.1 < a.1)
  else decide (a.1 < b.1)

/-- Modelled from the spec: the rows of the result set that lie strictly after
the cursor position in the listing order; with a null cursor, all of them.
`rows` is the filtered result set already arranged in the listing order. -/
def restAfterCursor (rows : List (Nat × Nat)) (descOrd : Bool)
    (c : Option (Nat × Nat)) : List (Nat × Nat) :=
  match c with
  | none => rows
  | some cu => rows.filter (fun r => rowBefore descOrd cu r)

/-- Modelled from the spec: the `list` operation is not in the shipped
sources; spec section 4.3 describes keyset pagination — a page is the first
`limit` rows after the cursor, and `next_cursor` is the (sort key, id) of the
last returned row when more rows remain, and null when the result set is
exhausted. -/
def listPage (rows : List (Nat × Nat)) (descOrd : Bool) (limit : Nat)
    (c : Option (Nat × Nat)) : List (Nat × Nat) × Option (Nat × Nat) :=
  let rest := restAfterCursor rows descOrd c
  let page := rest.take limit
  (page, if limit < rest.length then page.getLast? else none)

/-- The rows that remain beyond the returned page: the result set is exhausted
exactly when this list is empty. -/
def remainingAfterPage (rows : List (Nat × Nat)) (descOrd : Bool)
    (limit : Nat) (c : Option (Nat × Nat)) : List (Nat × Nat) :=
  (restAfterCursor rows descOrd c).drop limit

/-- The cursor stored by the client after a list fetch (JobsPanel.js line 66:
`setCursor(res.next_cursor || null)`): the returned cursor, null when it is
absent (or the empty string, which is falsy in JS). -/
def updateCursor (nextCursor : Option String) : Option String :=
  match nextCursor with
  | some s => if s = "" then none else some s
  | none => none

/-- Whether the load-more button is enabled (JobsPanel.js line 250:
`disabled={!cursor}`): exactly when the stored cursor is truthy. -/
def loadMoreEnabled (cursor : Option String) : Bool :=
  match cursor with
  | some s => !(s = "")
  | none => false

/-- The request the load-more button issues (JobsPanel.js line 250:
`fetchList(cursor)`): a list request carrying the stored cursor. -/
def loadMoreRequest (st : PanelState) : ListRequest :=
  mkListRequest st st.cursor

/-- Claim C8: `list` returns a null `next_cursor` exactly when the result set
is exhausted (no rows remain beyond the returned page); the client stores
exactly the returned cursor after every fetch (null when absent), the
load-more action is disabled at a null stored cursor, and a load-more fetch
carries the stored cursor. -/
theorem listPage_nextCursor_none_iff_exhausted (rows : List (Nat × Nat))
    (descOrd : Bool) (limit : Nat) (c : Option (Nat × Nat))
    (hlim : 0 < limit) (nc : Option String) (hnc : nc ≠ some "")
    (st : PanelState) :
    ((listPage rows descOrd limit c).2 = none ↔
      remainingAfterPage rows descOrd limit c = []) ∧
    updateCursor nc = nc ∧
    loadMoreEnabled none = false ∧
    (loadMoreRequest st).cursor = st.cursor := by
  refine ⟨?_, ?_, rfl, rfl⟩
  · unfold listPage remainingAfterPage
    simp only [List.drop_eq_nil_iff]
    split
    · rename_i hlt
      have hne : (restAfterCursor rows descOrd c).take limit ≠ [] := by
        simp only [ne_eq, List.take_eq_nil_iff]
        push_neg
        constructor
        · omega
        · intro hnil
          rw [hnil] at hlt
          simp at hlt
      constructor
      · intro hnone
        exact absurd (List.getLast?_eq_none_iff.mp hnone) hne
      · intro hlen
        omega
    · rename_i hnlt
      simp only [true_iff]
      omega
  · match nc with
    | none => rfl
    | some s =>
      simp only [updateCursor]
      split
      · rename_i hs
        subst hs
        exact absurd rfl hnc
      · rfl

/-- Witness for C8: three single-row pages over five rows with limit 2, the
third returning a null cursor; and a stored cursor example. -/
theorem listPage_nextCursor_none_iff_exhausted_witness :
    ((listPage [(50, 5), (40, 4), (30, 3), (20, 2), (10, 1)] true 2
        (some (20, 2))).2 = none ↔
      remainingAfterPage [(50, 5), (40, 4), (30, 3), (20, 2), (10, 1)] true 2
        (some (20, 2)) = []) ∧
    updateCursor (some "abc") = some "abc" := by
  refine ⟨?_, ?_⟩
  · exact (listPage_nextCursor_none_iff_exhausted
      [(50, 5), (40, 4), (30, 3), (20, 2), (10, 1)] true 2 (some (20, 2))
      (by decide) (some "abc") (by decide) ⟨"created_at", "desc", none⟩).1
  · exact (listPage_nextCursor_none_iff_exhausted
      [(50, 5), (40, 4), (30, 3), (20, 2), (10, 1)] true 2 (some (20, 2))
      (by decide) (some "abc") (by decide) ⟨"created_at", "desc", none⟩).2.1

/-! ## ErrorHandler.handleApiError (errorHandler.js) -/

/-- The body of an error response (`error.response.data`), with its optional
`code` and `message` fields. -/
structure ApiResponseData where
  code : Option String
  message : Option String
  deriving Repr, DecidableEq

/-- An error response (`error.response`): HTTP status and optional body. -/
structure ApiResponse where
  status : Nat
  data : Option ApiResponseData
  deriving Repr, DecidableEq

/-- An input error value of `handleApiError`: an optional `response`, the
presence of a `request` field, and an optional `message`. -/
structure ApiErrorValue where
  response : Option ApiResponse
  request : Bool
  message : Option String
  deriving Repr, DecidableEq

/-- The object `handleApiError` returns. -/
structure ErrorInfo where
  code : String
  message : String
  solutions : List String
  deriving Repr, DecidableEq

/-- JavaScript `a || b` over an optional string: `b` when `a` is absent or
empty (both falsy), `a`'s value otherwise. -/
def jsOrStr (a : Option String) (b : String) : String :=
  match a with
  | some s => if s = "" then b else s
  | none => b

/-- The `ErrorHandler.solutions` table (errorHandler.js lines 19-45): three
suggestions for each of the five codes it covers, nothing for any other
code. -/
def solutionsTable (code : String) : Option (List String) :=
  if code = "NETWORK_ERROR" then
    some ["检查网络连接是否正常", "尝试刷新页面", "检查防火墙设置"]
  else if code = "UPLOAD_FAILED" then
    some ["检查文件是否损坏", "确认文件格式正确", "尝试重新选择文件"]
  else if code = "PROCESSING_FAILED" then
    some ["确认音频文件完整且未损坏", "检查文件格式是否支持", "尝试使用较小的文件"]
  else if code = "FILE_TOO_LARGE" then
    some ["压缩音频文件", "使用较短的音频片段", "降低音频质量"]
  else if code = "UNSUPPORTED_FORMAT" then
    some ["转换为WAV、MP3或FLAC格式", "使用音频转换工具", "检查文件扩展名"]
  else
    none

/-- `ErrorHandler.handleApiError` (errorHandler.js lines 50-107): derives an
error code and message from the response status (falling back to the
SERVER_ERROR defaults set before the `if`), from the presence of a bare
`request` (network error), or from the error's own message; the messages for
statuses 401/403/413/415/500/504 are the corresponding `errorMessages` table
entries, inlined here. This helper is the `errorCode`/`errorMessage` pair the
function has derived when it reaches its `return`. -/
def deriveCodeMessage (e : ApiErrorValue) : String × String :=
  match e.response with
  | some resp =>
    if resp.status = 400 then
      (jsOrStr (resp.data.bind ApiResponseData.code) "INVALID_INPUT",
       jsOrStr (resp.data.bind ApiResponseData.message) "请求参数错误")
    else if resp.status = 401 then ("UNAUTHORIZED", "未授权访问，请重新登录")
    else if resp.status = 403 then ("FORBIDDEN", "权限不足，无法执行此操作")
    else if resp.status = 404 then ("NOT_FOUND", "请求的资源不存在")
    else if resp.status = 413 then
      ("FILE_TOO_LARGE", "文件过大，请选择小于100MB的文件")
    else if resp.status = 415 then
      ("UNSUPPORTED_FORMAT", "不支持的文件格式，请使用WAV、MP3或FLAC格式")
    else if resp.status = 500 then ("SERVER_ERROR", "服务器错误，请稍后重试")
    else if resp.status = 504 then ("TIMEOUT", "请求超时，请检查网络连接")
    else
      ("SERVER_ERROR",
       jsOrStr (resp.data.bind ApiResponseData.message)
         ("服务器错误 (" ++ toString resp.status ++ ")"))
  | none =>
    if e.request then ("NETWORK_ERROR", "网络连接失败，请检查网络设置")
    else ("SERVER_ERROR", jsOrStr e.message "未知错误")

/-- The returned object: derived code and message, and the solutions table
entry for the code with the single default suggestion as fallback
(errorHandler.js lines 102-106). -/
def handleApiError (e : ApiErrorValue) : ErrorInfo :=
  { code := (deriveCodeMessage e).1, message := (deriveCodeMessage e).2
    solutions :=
      (solutionsTable (deriveCodeMessage e).1).getD ["请联系技术支持"] }

/-- A string with a non-empty prefix is non-empty. -/
theorem append_ne_empty_left (x y : String) (hx : x ≠ "") : x ++ y ≠ "" := by
  intro h
  apply hx
  have hd : (x ++ y).data = ("" : String).data := by rw [h]
  rw [String.data_append] at hd
  have h1 : x.data = [] := (List.append_eq_nil.mp hd).1
  cases x with
  | mk d =>
    cases h1
    rfl

/-- A JS `a || b` string is non-empty whenever the fallback `b` is. -/
theorem jsOrStr_ne_empty (a : Option String) (b : String) (hb : b ≠ "") :
    jsOrStr a b ≠ "" := by
  cases a with
  | none => exact hb
  | some s =>
    simp only [jsOrStr]
    split
    · exact hb
    · assumption

/-- Whatever the code, the rendered solutions list is non-empty: the table
entries have three suggestions each and the fallback is the single default
suggestion. -/
theorem solutionsTable_getD_ne_nil (c : String) :
    (solutionsTable c).getD ["请联系技术支持"] ≠ [] := by
  unfold solutionsTable
  repeat' split
  all_goals simp

/-- The derived error code is a non-empty string, for every input. -/
theorem deriveCodeMessage_fst_ne_empty (e : ApiErrorValue) :
    (deriveCodeMessage e).1 ≠ "" := by
  obtain ⟨respOpt, req, msg⟩ := e
  cases respOpt with
  | none =>
    cases req <;> simp [deriveCodeMessage]
  | some resp =>
    simp only [deriveCodeMessage]
    repeat' split
    all_goals first
      | exact jsOrStr_ne_empty _ _ (by decide)
      | decide
      | simp

/-- The derived error message is a non-empty string, for every input. -/
theorem deriveCodeMessage_snd_ne_empty (e : ApiErrorValue) :
    (deriveCodeMessage e).2 ≠ "" := by
  obtain ⟨respOpt, req, msg⟩ := e
  cases respOpt with
  | none =>
    cases req
    · exact jsOrStr_ne_empty _ _ (by decide)
    · simp [deriveCodeMessage]
  | some resp =>
    simp only [deriveCodeMessage]
    repeat' split
    all_goals first
      | exact jsOrStr_ne_empty _ _ (by decide)
      | exact jsOrStr_ne_empty _ _
          (append_ne_empty_left _ _ (append_ne_empty_left _ _ (by decide)))
      | decide

/-- Claim C10: `handleApiError` is total over its input — with or without a
response or request field it returns an object whose code and message are
non-empty strings, whose solutions list is non-empty, and whose solutions are
exactly the table entry for the derived code, falling back to the single
default suggestion when the table has no entry for it. -/
theorem handleApiError_total (e : ApiErrorValue) :
    (handleApiError e).code ≠ "" ∧
    (handleApiError e).message ≠ "" ∧
    (handleApiError e).solutions ≠ [] ∧
    (handleApiError e).solutions
      = (solutionsTable (handleApiError e).code).getD ["请联系技术支持"] :=
  ⟨deriveCodeMessage_fst_ne_empty e, deriveCodeMessage_snd_ne_empty e,
   solutionsTable_getD_ne_nil _, rfl⟩
